import Mathlib

/-!
Verification of annotation_creator.py (composite-SLO resolution and fan-out).

Shallow embedding of the core of `annotation_creator.py`:

* `identify_composite_slos` (source lines 614-636): partition the SLO
  inventory into composite and component SLOs;
* `extract_composite_components` (lines 639-656): extract the component
  references declared by a composite SLO;
* `find_component_slos` (lines 659-675): resolve component references
  against the inventory;
* `create_annotations_for_slos` (lines 407-439) and `create_annotation`
  (lines 442-475): the fan-out engine with its success/total tally;
* the fan-out section of `list_composite_slos` (lines 694-779): the
  composite-then-components orchestration.

Modelling conventions:

* Python dicts read with `.get` become structures with `Option` fields;
  a missing key is `none`.  Only the keys the embedded functions read are
  modelled.  `spec.objectives` and the nested
  `composite.components.objectives` lists default to `[]` when absent,
  exactly as `.get(..., [])`/`.get(..., {})` do in the source.
* Python truthiness of `objective.get('composite')` is modelled by making
  the `composite` field an `Option CompositeDef`: `some` stands for a
  truthy (non-empty) composite dict, `none` for an absent key, a `None`
  value, or an empty (falsy) dict.  Both `identify_composite_slos` and
  `extract_composite_components` branch on that same truthiness, so the
  collapse is faithful.
* Python truthiness of the string fields `slo_name`/`slo_project`
  (line 420: `if slo_name and slo_project:`) is `truthyStr`: `none` and
  `some ""` are falsy.
* `uuid.uuid4()` (line 422) is modelled as a fresh-identifier supply: a
  natural-number counter threaded through the run, each generation
  returning the current value and incrementing.  Distinctness of the
  generated identifiers models uuid uniqueness within a run.
* The HTTP POST of `create_annotation` is an external collaborator; it is
  modelled as an oracle `submit : AnnotationData → Outcome` where
  `Outcome` covers status 200 (`Success`), status 409 (`Conflict`), any
  other status (`HttpError`) and a raised transport exception (`Raised`).
* Observable behaviour (the submission calls issued, in order, and the
  outcome of each) is returned as an explicit trace, so that claims about
  call order, per-call identifiers and diagnostics levels can be stated.
* Python `==` between possibly-`None` strings (lines 671) is `Option`
  equality: `None == None` is `True` in Python and `none == none` holds
  here.
-/

namespace AnnotationCreator

/-- A component reference: the `(project, slo, objective)` triple read from
an entry of a composite definition's `components.objectives` list
(source lines 650-654).  Each key may be absent. -/
structure ComponentRef where
  project : Option String
  slo : Option String
  objective : Option String
deriving DecidableEq, Repr

/-- A truthy `composite` dict of an objective.  The only part read by the
source is `composite.get('components', {}).get('objectives', [])`
(line 648), modelled as the list `componentObjectives` (absent nesting is
the empty list). -/
structure CompositeDef where
  componentObjectives : List ComponentRef
deriving DecidableEq, Repr

/-- One entry of `spec.objectives`.  The source only reads its
`composite` key; `some` models a truthy composite dict (see module
comment). -/
structure Objective where
  composite : Option CompositeDef
deriving DecidableEq, Repr

/-- The `metadata` of an SLO record: the keys read by the embedded functions
(`name`, `displayName`, `project`), each possibly absent. -/
structure Metadata where
  name : Option String
  displayName : Option String
  project : Option String
deriving DecidableEq, Repr

/-- An SLO record: its `metadata` and `spec.objectives` (the `[]` default
of line 621 folded in). -/
structure SLO where
  metadata : Metadata
  objectives : List Objective
deriving DecidableEq, Repr

/-- Python truthiness of an optional string: `None` and `""` are falsy. -/
def truthyStr : Option String → Bool
  | none => false
  | some s => !s.isEmpty

/-- The composite check of `identify_composite_slos` (lines 624-628): the
for-loop with break over the objectives, true when some objective has a
truthy `composite` field. -/
def slo_is_composite (s : SLO) : Bool :=
  s.objectives.any (fun o => o.composite.isSome)

/-- Source `identify_composite_slos` (lines 614-636): one pass over the
inventory appending each SLO to the composite or the component list. -/
def identify_composite_slos : List SLO → List SLO × List SLO
  | [] => ([], [])
  | s :: rest =>
    let r := identify_composite_slos rest
    if slo_is_composite s then (s :: r.1, r.2) else (r.1, s :: r.2)

/-- The references contributed by one objective: none when its
`composite` field is falsy, otherwise one reference per entry of the
nested `components.objectives` list, in declaration order
(lines 645-654). -/
def objective_component_refs (o : Objective) : List ComponentRef :=
  match o.composite with
  | none => []
  | some cd =>
    cd.componentObjectives.map
      (fun c => { project := c.project, slo := c.slo, objective := c.objective })

/-- The outer loop of `extract_composite_components` over the objectives
list, appending each objective's references in order. -/
def extract_components_loop : List Objective → List ComponentRef
  | [] => []
  | o :: rest => objective_component_refs o ++ extract_components_loop rest

/-- Source `extract_composite_components` (lines 639-656): collect the component
references declared by a composite SLO, objective by objective. -/
def extract_composite_components (c : SLO) : List ComponentRef :=
  extract_components_loop c.objectives

/-- The inner loop of `find_component_slos` (lines 667-673): linear scan
of the inventory with break at the first SLO whose `(project, name)`
equals the reference's `(project, slo)` (Python `==`, so two `None`s
match). -/
def find_first_match (slos : List SLO) (r : ComponentRef) : Option SLO :=
  match slos with
  | [] => none
  | s :: rest =>
    if s.metadata.project == r.project && s.metadata.name == r.slo then some s
    else find_first_match rest r

/-- Source `find_component_slos` (lines 659-675): for each reference in order,
append the first matching SLO of the inventory; an unmatched reference
contributes nothing. -/
def find_component_slos (slos_data : List SLO) : List ComponentRef → List SLO
  | [] => []
  | r :: rest =>
    match find_first_match slos_data r with
    | some s => s :: find_component_slos slos_data rest
    | none => find_component_slos slos_data rest

/-- Outcome of one submission to the external annotations API, as
distinguished by `create_annotation` (lines 453-475): HTTP 200, HTTP 409,
any other status, or a raised transport exception. -/
inductive Outcome
  | Success
  | Conflict
  | HttpError
  | Raised
deriving DecidableEq, Repr

/-- Whether an outcome counts as success: only HTTP 200 does. -/
def outcomeSucceeds : Outcome → Bool
  | Outcome.Success => true
  | _ => false

/-- The levels `log_message` is called with (lines 50-66). -/
inductive LogLevel
  | INFO
  | WARNING
  | ERROR
  | SUCCESS
deriving DecidableEq, Repr

/-- The annotation payload built per target (lines 425-433): the
generated identifier (modelled as a counter value), the shared
description and time range, and the target's project/name.  The
`slo_display_name` key is carried for logging only. -/
structure AnnotationData where
  name : Nat
  description : String
  startTime : String
  endTime : String
  project : String
  slo : String
  sloDisplayName : String
deriving DecidableEq, Repr

/-- The boolean result of `create_annotation` (lines 442-475): `true`
exactly on status 200; 409, other statuses and raised exceptions are all
absorbed into `false` (the `except` clause at lines 473-475 catches the
exception). -/
def create_annotation_result (submit : AnnotationData → Outcome) (a : AnnotationData) : Bool :=
  match submit a with
  | Outcome.Success => true
  | Outcome.Conflict => false
  | Outcome.HttpError => false
  | Outcome.Raised => false

/-- The level of the log line `create_annotation` emits for an outcome:
SUCCESS for 200 (line 459), WARNING for 409 (line 462), ERROR for any
other status (line 465) and for a raised exception (line 474). -/
def create_annotation_level : Outcome → LogLevel
  | Outcome.Success => LogLevel.SUCCESS
  | Outcome.Conflict => LogLevel.WARNING
  | Outcome.HttpError => LogLevel.ERROR
  | Outcome.Raised => LogLevel.ERROR

/-- The well-formedness test of line 420 (`if slo_name and slo_project:`):
both strings present and non-empty under Python truthiness. -/
def wellFormed (s : SLO) : Bool :=
  truthyStr s.metadata.name && truthyStr s.metadata.project

/-- The annotation payload built for a well-formed target at lines
425-433, with `id` the freshly generated identifier.  `getD ""` is only
reached under `wellFormed`, where the fields are present. -/
def mkAnnotationData (d st et : String) (s : SLO) (id : Nat) : AnnotationData :=
  { name := id
    description := d
    startTime := st
    endTime := et
    project := s.metadata.project.getD ""
    slo := s.metadata.name.getD ""
    sloDisplayName := (s.metadata.displayName.getD (s.metadata.name.getD "")) }

/-- State after the fan-out loop: the success tally, the next fresh
identifier, and the trace of submission calls issued (payload and
outcome), in order. -/
structure LoopResult where
  succeeded : Nat
  nextId : Nat
  calls : List (AnnotationData × Outcome)
deriving DecidableEq, Repr

/-- The for-loop of `create_annotations_for_slos` (lines 415-436): for
each target in order, skip it when `name` or `project` is falsy,
otherwise generate a fresh identifier, build the payload, submit it and
count a success exactly when `create_annotation` returned `True`. -/
def apply_loop (submit : AnnotationData → Outcome) (d st et : String) :
    List SLO → Nat → LoopResult
  | [], ctr => { succeeded := 0, nextId := ctr, calls := [] }
  | s :: rest, ctr =>
    if wellFormed s then
      let a := mkAnnotationData d st et s ctr
      let r := apply_loop submit d st et rest (ctr + 1)
      { succeeded := (if create_annotation_result submit a then 1 else 0) + r.succeeded
        nextId := r.nextId
        calls := (a, submit a) :: r.calls }
    else
      apply_loop submit d st et rest ctr

/-- Result of one fan-out: the returned tally `(succeeded, total)`
together with the fresh-identifier state and the call trace. -/
structure ApplyResult where
  succeeded : Nat
  total : Nat
  nextId : Nat
  calls : List (AnnotationData × Outcome)
deriving DecidableEq, Repr

/-- Source `create_annotations_for_slos` (lines 407-439): `total_count` is the
length of the target list (line 411); the loop accumulates
`success_count`; the function returns `(success_count, total_count)`. -/
def create_annotations_for_slos (submit : AnnotationData → Outcome)
    (slos_list : List SLO) (d st et : String) (ctr : Nat) : ApplyResult :=
  let r := apply_loop submit d st et slos_list ctr
  { succeeded := r.succeeded
    total := slos_list.length
    nextId := r.nextId
    calls := r.calls }

/-- The operator-visible report of one composite fan-out run of
`list_composite_slos`: the reference listing printed at lines 717 and
746-758, the resolved components (count printed at line 743), the tally
of the composite batch, the tally of the component batch when it ran
(`none` otherwise), whether the could-not-find warning of line 778 was
printed, and the combined submission trace. -/
structure CompositeRunReport where
  referenced : List ComponentRef
  resolved : List SLO
  tallyA : Nat × Nat
  tallyB : Option (Nat × Nat)
  noComponentsWarning : Bool
  calls : List (AnnotationData × Outcome)
deriving DecidableEq, Repr

/-- The fan-out core of `list_composite_slos` for one selected composite
(lines 697-713 compute the references and resolved components; lines
763-779 apply the engine to `[selected_composite]`, then, only when the
resolved component list is non-empty, to the resolved components,
otherwise print the warning). -/
def list_composite_slos_core (submit : AnnotationData → Outcome)
    (slos_data : List SLO) (selected_composite : SLO)
    (d st et : String) (ctr : Nat) : CompositeRunReport × Nat :=
  let component_refs := extract_composite_components selected_composite
  let selected_components := find_component_slos slos_data component_refs
  let ra := create_annotations_for_slos submit [selected_composite] d st et ctr
  match selected_components with
  | [] =>
    ({ referenced := component_refs
       resolved := selected_components
       tallyA := (ra.succeeded, ra.total)
       tallyB := none
       noComponentsWarning := true
       calls := ra.calls }, ra.nextId)
  | _ :: _ =>
    let rb := create_annotations_for_slos submit selected_components d st et ra.nextId
    ({ referenced := component_refs
       resolved := selected_components
       tallyA := (ra.succeeded, ra.total)
       tallyB := some (rb.succeeded, rb.total)
       noComponentsWarning := false
       calls := ra.calls ++ rb.calls }, rb.nextId)

/-! ## Helper lemmas -/

/-- The inner scan of `find_component_slos` returns the first inventory
entry satisfying the match predicate. -/
theorem find_first_match_eq_find (slos : List SLO) (r : ComponentRef) :
    find_first_match slos r =
      slos.find? (fun s => s.metadata.project == r.project && s.metadata.name == r.slo) := by
  induction slos with
  | nil => rfl
  | cons s rest ih =>
    by_cases h : (s.metadata.project == r.project && s.metadata.name == r.slo) = true
    · simp [find_first_match, List.find?, h]
    · simp [find_first_match, List.find?, h, ih]

/-- Resolution is the per-reference first-match map, dropping unmatched
references. -/
theorem find_component_slos_eq_filterMap (inv : List SLO) (refs : List ComponentRef) :
    find_component_slos inv refs = refs.filterMap (fun r => find_first_match inv r) := by
  induction refs with
  | nil => rfl
  | cons r rest ih =>
    cases h : find_first_match inv r <;>
      simp [find_component_slos, List.filterMap_cons, h, ih]

/-- The classifier is the stable filter pair over `slo_is_composite`. -/
theorem identify_eq_filter (slos : List SLO) :
    identify_composite_slos slos =
      (slos.filter (fun s => slo_is_composite s),
       slos.filter (fun s => !slo_is_composite s)) := by
  induction slos with
  | nil => rfl
  | cons s rest ih =>
    by_cases h : slo_is_composite s = true <;>
      simp [identify_composite_slos, ih, List.filter_cons, h]

/-- The extraction loop is the concatenation of the per-objective
reference lists. -/
theorem extract_components_loop_eq_join (os : List Objective) :
    extract_components_loop os = (os.map objective_component_refs).flatten := by
  induction os with
  | nil => rfl
  | cons o rest ih => simp [extract_components_loop, ih]

/-- The combined call trace of a composite fan-out is the composite
batch's trace followed by the component batch's trace (the component
batch over the empty resolved list contributes no calls, matching the
skipped engine call). -/
theorem list_composite_slos_core_calls (submit : AnnotationData → Outcome)
    (slos : List SLO) (c : SLO) (d st et : String) (ctr : Nat) :
    (list_composite_slos_core submit slos c d st et ctr).1.calls =
      (apply_loop submit d st et [c] ctr).calls ++
        (apply_loop submit d st et
          (find_component_slos slos (extract_composite_components c))
          (apply_loop submit d st et [c] ctr).nextId).calls := by
  rw [list_composite_slos_core]
  simp only []
  split
  next h => simp [create_annotations_for_slos, h, apply_loop]
  next x xs h => simp [create_annotations_for_slos, h]

/-- The reference listing and resolved list of the composite report are
the extractor's and resolver's outputs. -/
theorem list_composite_slos_core_refs (submit : AnnotationData → Outcome)
    (slos : List SLO) (c : SLO) (d st et : String) (ctr : Nat) :
    (list_composite_slos_core submit slos c d st et ctr).1.referenced =
      extract_composite_components c
    ∧ (list_composite_slos_core submit slos c d st et ctr).1.resolved =
      find_component_slos slos (extract_composite_components c) := by
  rw [list_composite_slos_core]
  simp only []
  split <;> exact ⟨rfl, rfl⟩

/-- The composite tally of the report is the engine's tally on the
single-element composite batch, started at the run's initial counter. -/
theorem list_composite_slos_core_tallyA (submit : AnnotationData → Outcome)
    (slos : List SLO) (c : SLO) (d st et : String) (ctr : Nat) :
    (list_composite_slos_core submit slos c d st et ctr).1.tallyA =
      ((create_annotations_for_slos submit [c] d st et ctr).succeeded,
       (create_annotations_for_slos submit [c] d st et ctr).total) := by
  rw [list_composite_slos_core]
  simp only []
  split <;> rfl

/-- When nothing resolved, the component batch is skipped (`tallyB` is
`none`) and the warning is printed; when something resolved, the engine
runs on the resolved list with the counter left by the composite batch
and no warning is printed. -/
theorem list_composite_slos_core_tallyB (submit : AnnotationData → Outcome)
    (slos : List SLO) (c : SLO) (d st et : String) (ctr : Nat) :
    (find_component_slos slos (extract_composite_components c) = [] →
      (list_composite_slos_core submit slos c d st et ctr).1.tallyB = none
      ∧ (list_composite_slos_core submit slos c d st et ctr).1.noComponentsWarning = true)
    ∧ (find_component_slos slos (extract_composite_components c) ≠ [] →
      (list_composite_slos_core submit slos c d st et ctr).1.tallyB =
        some ((create_annotations_for_slos submit
                (find_component_slos slos (extract_composite_components c)) d st et
                (create_annotations_for_slos submit [c] d st et ctr).nextId).succeeded,
              (create_annotations_for_slos submit
                (find_component_slos slos (extract_composite_components c)) d st et
                (create_annotations_for_slos submit [c] d st et ctr).nextId).total)
      ∧ (list_composite_slos_core submit slos c d st et ctr).1.noComponentsWarning
          = false) := by
  rw [list_composite_slos_core]
  simp only []
  split
  next h =>
    refine ⟨fun _ => ⟨rfl, rfl⟩, fun hne => absurd h hne⟩
  next x xs h =>
    refine ⟨fun hnil => ?_, fun _ => ⟨by simp [create_annotations_for_slos, h], rfl⟩⟩
    rw [h] at hnil
    exact absurd hnil (List.cons_ne_nil x xs)

/-- The two filters of a boolean predicate split a list's length. -/
theorem length_filter_add_length_filter_not {α : Type} (p : α → Bool) (l : List α) :
    (l.filter p).length + (l.filter (fun a => !p a)).length = l.length := by
  induction l with
  | nil => rfl
  | cons a l ih =>
    cases h : p a <;> simp [List.filter_cons, h, ← ih] <;> omega

/-- Function `create_annotation` returns `True` exactly on a `Success` outcome. -/
theorem create_annotation_result_eq (submit : AnnotationData → Outcome) (a : AnnotationData) :
    create_annotation_result submit a = outcomeSucceeds (submit a) := by
  unfold create_annotation_result
  cases submit a <;> rfl

/-- The fan-out loop issues exactly one submission call per well-formed
target, whatever the submission outcomes are. -/
theorem apply_loop_calls_length (submit : AnnotationData → Outcome) (d st et : String)
    (ts : List SLO) (ctr : Nat) :
    (apply_loop submit d st et ts ctr).calls.length = (ts.filter wellFormed).length := by
  induction ts generalizing ctr with
  | nil => rfl
  | cons s rest ih =>
    by_cases hw : wellFormed s = true <;>
      simp [apply_loop, hw, List.filter_cons, ih]

/-- The fresh-identifier counter advances by one per well-formed target. -/
theorem apply_loop_nextId (submit : AnnotationData → Outcome) (d st et : String)
    (ts : List SLO) (ctr : Nat) :
    (apply_loop submit d st et ts ctr).nextId = ctr + (ts.filter wellFormed).length := by
  induction ts generalizing ctr with
  | nil => simp [apply_loop]
  | cons s rest ih =>
    by_cases hw : wellFormed s = true <;>
      simp [apply_loop, hw, List.filter_cons, ih] <;> omega

/-- The success tally counts exactly the calls whose outcome succeeded. -/
theorem apply_loop_succeeded (submit : AnnotationData → Outcome) (d st et : String)
    (ts : List SLO) (ctr : Nat) :
    (apply_loop submit d st et ts ctr).succeeded =
      ((apply_loop submit d st et ts ctr).calls.filter
        (fun p => outcomeSucceeds p.2)).length := by
  induction ts generalizing ctr with
  | nil => rfl
  | cons s rest ih =>
    by_cases hw : wellFormed s = true
    · cases h : outcomeSucceeds (submit (mkAnnotationData d st et s ctr)) <;>
        simp [apply_loop, hw, List.filter_cons, create_annotation_result_eq, h, ih] <;>
        omega
    · simp [apply_loop, hw, ih]

/-- The generated identifiers of a fan-out are the consecutive counter
values, one per well-formed target. -/
theorem apply_loop_names (submit : AnnotationData → Outcome) (d st et : String)
    (ts : List SLO) (ctr : Nat) :
    (apply_loop submit d st et ts ctr).calls.map (fun p => p.1.name) =
      List.range' ctr (ts.filter wellFormed).length := by
  induction ts generalizing ctr with
  | nil => rfl
  | cons s rest ih =>
    by_cases hw : wellFormed s = true
    · simp [apply_loop, hw, List.filter_cons, ih, mkAnnotationData, List.range'_succ]
    · simp [apply_loop, hw, List.filter_cons, ih]

/-- The `(project, slo)` keys of the issued calls are the keys of the
well-formed targets, in enumeration order. -/
theorem apply_loop_keys (submit : AnnotationData → Outcome) (d st et : String)
    (ts : List SLO) (ctr : Nat) :
    (apply_loop submit d st et ts ctr).calls.map (fun p => (p.1.project, p.1.slo)) =
      (ts.filter wellFormed).map
        (fun s => (s.metadata.project.getD "", s.metadata.name.getD "")) := by
  induction ts generalizing ctr with
  | nil => rfl
  | cons s rest ih =>
    by_cases hw : wellFormed s = true
    · simp [apply_loop, hw, List.filter_cons, ih, mkAnnotationData]
    · simp [apply_loop, hw, List.filter_cons, ih]

/-- Every recorded call outcome is the oracle's answer on its payload. -/
theorem apply_loop_outcome (submit : AnnotationData → Outcome) (d st et : String)
    (ts : List SLO) (ctr : Nat) :
    ∀ p ∈ (apply_loop submit d st et ts ctr).calls, p.2 = submit p.1 := by
  induction ts generalizing ctr with
  | nil => intro p hp; simp [apply_loop] at hp
  | cons s rest ih =>
    intro p hp
    by_cases hw : wellFormed s = true
    · simp only [apply_loop, hw, if_true, List.mem_cons] at hp
      rcases hp with h | h
      · rw [h]
      · exact ih (ctr + 1) p h
    · simp only [apply_loop, hw] at hp
      exact ih ctr p hp

/-! ## Claims -/

/-- C1: `create_annotations_for_slos` returns a tally whose total is the
length of the target list; targets failing the name/project truthiness
check issue no submission call (the call trace has one entry per
well-formed target, keyed in order); `succeeded` counts exactly the calls
whose outcome was `Success`; the empty list yields `(0, 0)`; and an
all-`Conflict` oracle yields `succeeded = 0` with `total` the list
length. -/
theorem claim_C1 (submit : AnnotationData → Outcome) (ts : List SLO)
    (d st et : String) (ctr : Nat) :
    (create_annotations_for_slos submit ts d st et ctr).total = ts.length
    ∧ (create_annotations_for_slos submit ts d st et ctr).calls.length
        = (ts.filter wellFormed).length
    ∧ (create_annotations_for_slos submit ts d st et ctr).calls.map
          (fun p => (p.1.project, p.1.slo))
        = (ts.filter wellFormed).map
            (fun s => (s.metadata.project.getD "", s.metadata.name.getD ""))
    ∧ (create_annotations_for_slos submit ts d st et ctr).succeeded
        = ((create_annotations_for_slos submit ts d st et ctr).calls.filter
            (fun p => outcomeSucceeds p.2)).length
    ∧ create_annotations_for_slos submit [] d st et ctr
        = { succeeded := 0, total := 0, nextId := ctr, calls := [] }
    ∧ ((∀ a, submit a = Outcome.Conflict) →
        (create_annotations_for_slos submit ts d st et ctr).succeeded = 0
        ∧ (create_annotations_for_slos submit ts d st et ctr).total = ts.length) := by
  refine ⟨rfl, apply_loop_calls_length submit d st et ts ctr,
    apply_loop_keys submit d st et ts ctr,
    apply_loop_succeeded submit d st et ts ctr, rfl, ?_⟩
  intro hconf
  refine ⟨?_, rfl⟩
  have hs := apply_loop_succeeded submit d st et ts ctr
  have hnil : (apply_loop submit d st et ts ctr).calls.filter
      (fun p => outcomeSucceeds p.2) = [] := by
    rw [List.filter_eq_nil_iff]
    intro p hp
    rw [apply_loop_outcome submit d st et ts ctr p hp, hconf p.1]
    simp [outcomeSucceeds]
  simpa [create_annotations_for_slos, hnil] using hs

/-- C1 witness: at a two-target list under an all-`Conflict` oracle the
tally is `(0, 2)`, and the empty list yields `(0, 0)`. -/
theorem claim_C1_witness :
    ((create_annotations_for_slos (fun _ => Outcome.Conflict)
        [{ metadata := { name := some "a", displayName := none, project := some "p" },
           objectives := [] },
         { metadata := { name := some "b", displayName := none, project := some "p" },
           objectives := [] }] "d" "2025-01-01T00:00:00Z" "2025-01-02T00:00:00Z" 0).succeeded = 0
      ∧ (create_annotations_for_slos (fun _ => Outcome.Conflict)
        [{ metadata := { name := some "a", displayName := none, project := some "p" },
           objectives := [] },
         { metadata := { name := some "b", displayName := none, project := some "p" },
           objectives := [] }] "d" "2025-01-01T00:00:00Z" "2025-01-02T00:00:00Z" 0).total = 2)
    ∧ create_annotations_for_slos (fun _ => Outcome.Conflict) []
        "d" "2025-01-01T00:00:00Z" "2025-01-02T00:00:00Z" 0
      = { succeeded := 0, total := 0, nextId := 0, calls := [] } :=
  ⟨(claim_C1 (fun _ => Outcome.Conflict) _ "d" "2025-01-01T00:00:00Z"
      "2025-01-02T00:00:00Z" 0).2.2.2.2.2 (fun _ => rfl),
   (claim_C1 (fun _ => Outcome.Conflict) [] "d" "2025-01-01T00:00:00Z"
      "2025-01-02T00:00:00Z" 0).2.2.2.2.1⟩

/-- C2: `find_component_slos` processes the references in order and, for
each reference, appends the first SLO in inventory order whose
`(project, name)` equals the reference's `(project, slo)`; an unmatched
reference is omitted without error (the equation holds for every
inventory, duplicate keys included), and the resolved list is never
longer than the reference list. -/
theorem claim_C2 (inv : List SLO) (refs : List ComponentRef) :
    find_component_slos inv refs =
      refs.filterMap (fun r =>
        inv.find? (fun s => s.metadata.project == r.project && s.metadata.name == r.slo))
    ∧ (find_component_slos inv refs).length ≤ refs.length := by
  have hfm : find_component_slos inv refs =
      refs.filterMap (fun r => find_first_match inv r) :=
    find_component_slos_eq_filterMap inv refs
  constructor
  · rw [hfm]
    congr 1
    funext r
    exact find_first_match_eq_find inv r
  · rw [hfm]
    exact List.length_filterMap_le _ _

/-- C3: `identify_composite_slos` partitions the inventory: the output
lengths sum to the inventory length, each group is the stable,
order-preserving filter of the inventory (composite iff some objective
has a truthy composite field), and every inventory SLO lies in exactly
one group. -/
theorem claim_C3 (slos : List SLO) :
    (identify_composite_slos slos).1.length + (identify_composite_slos slos).2.length
        = slos.length
    ∧ (identify_composite_slos slos).1 = slos.filter (fun s => slo_is_composite s)
    ∧ (identify_composite_slos slos).2 = slos.filter (fun s => !slo_is_composite s)
    ∧ (∀ s, s ∈ slos →
        ((s ∈ (identify_composite_slos slos).1 ↔ slo_is_composite s = true)
          ∧ (s ∈ (identify_composite_slos slos).2 ↔ slo_is_composite s = false))) := by
  rw [identify_eq_filter]
  refine ⟨length_filter_add_length_filter_not _ _, rfl, rfl, ?_⟩
  intro s hs
  constructor
  · simp [List.mem_filter, hs]
  · simp [List.mem_filter, hs]

/-- C3 witness: the partition facts at a concrete two-element inventory
(one composite, one plain SLO). -/
theorem claim_C3_witness :
    (identify_composite_slos
        [{ metadata := { name := some "a", displayName := none, project := some "p" },
           objectives := [{ composite := some { componentObjectives := [] } }] },
         { metadata := { name := some "b", displayName := none, project := some "p" },
           objectives := [] }]).1.length
      + (identify_composite_slos
        [{ metadata := { name := some "a", displayName := none, project := some "p" },
           objectives := [{ composite := some { componentObjectives := [] } }] },
         { metadata := { name := some "b", displayName := none, project := some "p" },
           objectives := [] }]).2.length = 2 :=
  (claim_C3 _).1

/-- C4: the composite fan-out applies the engine first to the
single-element batch holding the selected composite (started at the
run's counter), and afterwards — only when the resolved component list is
non-empty — to the resolved components; the combined call trace is the
composite batch's calls followed by the component batch's calls, with
the call keys in enumeration order (composite before every component,
components in resolved order). -/
theorem claim_C4 (submit : AnnotationData → Outcome) (slos : List SLO) (c : SLO)
    (d st et : String) (ctr : Nat) :
    (list_composite_slos_core submit slos c d st et ctr).1.tallyA =
      ((create_annotations_for_slos submit [c] d st et ctr).succeeded,
       (create_annotations_for_slos submit [c] d st et ctr).total)
    ∧ (list_composite_slos_core submit slos c d st et ctr).1.calls =
        (create_annotations_for_slos submit [c] d st et ctr).calls ++
          (create_annotations_for_slos submit
            (find_component_slos slos (extract_composite_components c)) d st et
            (create_annotations_for_slos submit [c] d st et ctr).nextId).calls
    ∧ (find_component_slos slos (extract_composite_components c) = [] →
        (list_composite_slos_core submit slos c d st et ctr).1.tallyB = none)
    ∧ (find_component_slos slos (extract_composite_components c) ≠ [] →
        (list_composite_slos_core submit slos c d st et ctr).1.tallyB =
          some ((create_annotations_for_slos submit
                  (find_component_slos slos (extract_composite_components c)) d st et
                  (create_annotations_for_slos submit [c] d st et ctr).nextId).succeeded,
                (create_annotations_for_slos submit
                  (find_component_slos slos (extract_composite_components c)) d st et
                  (create_annotations_for_slos submit [c] d st et ctr).nextId).total))
    ∧ (list_composite_slos_core submit slos c d st et ctr).1.calls.map
          (fun p => (p.1.project, p.1.slo)) =
        ([c].filter wellFormed).map
            (fun s => (s.metadata.project.getD "", s.metadata.name.getD "")) ++
          ((find_component_slos slos (extract_composite_components c)).filter
              wellFormed).map
            (fun s => (s.metadata.project.getD "", s.metadata.name.getD "")) := by
  refine ⟨list_composite_slos_core_tallyA submit slos c d st et ctr, ?_, ?_, ?_, ?_⟩
  · simpa [create_annotations_for_slos] using
      list_composite_slos_core_calls submit slos c d st et ctr
  · exact fun h =>
      ((list_composite_slos_core_tallyB submit slos c d st et ctr).1 h).1
  · exact fun h =>
      ((list_composite_slos_core_tallyB submit slos c d st et ctr).2 h).1
  · rw [list_composite_slos_core_calls, List.map_append,
      apply_loop_keys, apply_loop_keys]

/-- C4 witness: in a concrete run with one resolvable component, the
component batch runs (tallyB is reported) and the call keys list the
composite first, then the component. -/
theorem claim_C4_witness :
    (list_composite_slos_core (fun _ => Outcome.Success)
        [{ metadata := { name := some "a", displayName := none, project := some "p" },
           objectives := [] }]
        { metadata := { name := some "c", displayName := none, project := some "p" },
          objectives := [{ composite := some { componentObjectives :=
            [{ project := some "p", slo := some "a", objective := some "o" }] } }] }
        "d" "s" "e" 0).1.tallyB = some (1, 1)
    ∧ (list_composite_slos_core (fun _ => Outcome.Success)
        [{ metadata := { name := some "a", displayName := none, project := some "p" },
           objectives := [] }]
        { metadata := { name := some "c", displayName := none, project := some "p" },
          objectives := [{ composite := some { componentObjectives :=
            [{ project := some "p", slo := some "a", objective := some "o" }] } }] }
        "d" "s" "e" 0).1.calls.map (fun p => (p.1.project, p.1.slo)) =
      [(("p" : String), ("c" : String)), (("p" : String), ("a" : String))] := by
  have h := claim_C4 (fun _ => Outcome.Success)
    [{ metadata := { name := some "a", displayName := none, project := some "p" },
       objectives := [] }]
    { metadata := { name := some "c", displayName := none, project := some "p" },
      objectives := [{ composite := some { componentObjectives :=
        [{ project := some "p", slo := some "a", objective := some "o" }] } }] }
    "d" "s" "e" 0
  refine ⟨?_, ?_⟩
  · have hb := h.2.2.2.1 (by decide)
    rw [hb]
    rfl
  · rw [h.2.2.2.2]
    rfl

/-- C7: the "references present but nothing resolved" warning state and
the "no references declared" state are both representable in the
composite report and distinguishable from each other: both print the
warning and skip the component batch, but the reported reference listing
is non-empty in the first and empty in the second, so the reports
differ. -/
theorem claim_C7 (submit1 submit2 : AnnotationData → Outcome)
    (slos1 slos2 : List SLO) (c1 c2 : SLO)
    (d1 st1 et1 d2 st2 et2 : String) (ctr1 ctr2 : Nat)
    (h1 : extract_composite_components c1 ≠ [])
    (h2 : find_component_slos slos1 (extract_composite_components c1) = [])
    (h3 : extract_composite_components c2 = []) :
    (list_composite_slos_core submit1 slos1 c1 d1 st1 et1 ctr1).1.noComponentsWarning
        = true
    ∧ (list_composite_slos_core submit1 slos1 c1 d1 st1 et1 ctr1).1.tallyB = none
    ∧ (list_composite_slos_core submit1 slos1 c1 d1 st1 et1 ctr1).1.referenced ≠ []
    ∧ (list_composite_slos_core submit1 slos1 c1 d1 st1 et1 ctr1).1.resolved = []
    ∧ (list_composite_slos_core submit2 slos2 c2 d2 st2 et2 ctr2).1.noComponentsWarning
        = true
    ∧ (list_composite_slos_core submit2 slos2 c2 d2 st2 et2 ctr2).1.referenced = []
    ∧ (list_composite_slos_core submit1 slos1 c1 d1 st1 et1 ctr1).1.referenced ≠
        (list_composite_slos_core submit2 slos2 c2 d2 st2 et2 ctr2).1.referenced := by
  have hr1 := list_composite_slos_core_refs submit1 slos1 c1 d1 st1 et1 ctr1
  have hr2 := list_composite_slos_core_refs submit2 slos2 c2 d2 st2 et2 ctr2
  have hres2 : find_component_slos slos2 (extract_composite_components c2) = [] := by
    rw [h3]
    rfl
  refine ⟨((list_composite_slos_core_tallyB submit1 slos1 c1 d1 st1 et1 ctr1).1 h2).2,
    ((list_composite_slos_core_tallyB submit1 slos1 c1 d1 st1 et1 ctr1).1 h2).1,
    ?_, ?_, ((list_composite_slos_core_tallyB submit2 slos2 c2 d2 st2 et2 ctr2).1 hres2).2,
    ?_, ?_⟩
  · rw [hr1.1]; exact h1
  · rw [hr1.2]; exact h2
  · rw [hr2.1]; exact h3
  · rw [hr1.1, hr2.1, h3]; exact h1

/-- C7 witness: concrete runs — a composite with one stale reference over
an empty inventory, and a composite with no objectives — both print the
warning, with reference listings `[ref]` and `[]` respectively. -/
theorem claim_C7_witness :
    (list_composite_slos_core (fun _ => Outcome.Success) []
        { metadata := { name := some "c1", displayName := none, project := some "p" },
          objectives := [{ composite := some { componentObjectives :=
            [{ project := some "p", slo := some "missing", objective := none }] } }] }
        "d" "s" "e" 0).1.noComponentsWarning = true
    ∧ (list_composite_slos_core (fun _ => Outcome.Success) []
        { metadata := { name := some "c2", displayName := none, project := some "p" },
          objectives := [] }
        "d" "s" "e" 0).1.noComponentsWarning = true
    ∧ (list_composite_slos_core (fun _ => Outcome.Success) []
        { metadata := { name := some "c1", displayName := none, project := some "p" },
          objectives := [{ composite := some { componentObjectives :=
            [{ project := some "p", slo := some "missing", objective := none }] } }] }
        "d" "s" "e" 0).1.referenced ≠
      (list_composite_slos_core (fun _ => Outcome.Success) []
        { metadata := { name := some "c2", displayName := none, project := some "p" },
          objectives := [] }
        "d" "s" "e" 0).1.referenced := by
  have h := claim_C7 (fun _ => Outcome.Success) (fun _ => Outcome.Success) [] []
    { metadata := { name := some "c1", displayName := none, project := some "p" },
      objectives := [{ composite := some { componentObjectives :=
        [{ project := some "p", slo := some "missing", objective := none }] } }] }
    { metadata := { name := some "c2", displayName := none, project := some "p" },
      objectives := [] }
    "d" "s" "e" "d" "s" "e" 0 0 (by decide) (by decide) (by decide)
  exact ⟨h.1, h.2.2.2.2.1, h.2.2.2.2.2.2⟩

/-- C10: resolution matches a reference by `(project, slo)` only and
never consults its `objective` field, so two references differing only
in `objective` resolve to the same SLO record twice, and a single
fan-out over the duplicated target submits two payloads with distinct
identifiers to the same `(project, slo)`. -/
theorem claim_C10 (inv : List SLO) (r : ComponentRef) (o1 o2 : Option String)
    (s : SLO) (submit : AnnotationData → Outcome) (d st et : String) (ctr : Nat) :
    (∀ o, find_first_match inv { r with objective := o } = find_first_match inv r)
    ∧ (find_first_match inv { r with objective := o1 } = some s →
        find_component_slos inv
          [{ r with objective := o1 }, { r with objective := o2 }] = [s, s])
    ∧ (wellFormed s = true →
        (create_annotations_for_slos submit [s, s] d st et ctr).calls.map
            (fun p => p.1.name) = [ctr, ctr + 1]
        ∧ (create_annotations_for_slos submit [s, s] d st et ctr).calls.map
            (fun p => (p.1.project, p.1.slo)) =
          [(s.metadata.project.getD "", s.metadata.name.getD ""),
           (s.metadata.project.getD "", s.metadata.name.getD "")]) := by
  have hobj : ∀ o, find_first_match inv { r with objective := o } =
      find_first_match inv r := by
    intro o
    induction inv with
    | nil => rfl
    | cons x rest ih => simp [find_first_match, ih]
  refine ⟨hobj, fun h => ?_, fun hwf => ?_⟩
  · have h2 : find_first_match inv { r with objective := o2 } = some s := by
      rw [hobj o2, ← hobj o1, h]
    simp [find_component_slos, h, h2]
  · constructor
    · rw [show (create_annotations_for_slos submit [s, s] d st et ctr).calls =
          (apply_loop submit d st et [s, s] ctr).calls from rfl,
        apply_loop_names]
      simp [List.filter_cons, hwf, List.range'_succ]
    · rw [show (create_annotations_for_slos submit [s, s] d st et ctr).calls =
          (apply_loop submit d st et [s, s] ctr).calls from rfl,
        apply_loop_keys]
      simp [List.filter_cons, hwf]

/-- C10 witness: two references to the same `(project, slo)` with
different objectives resolve to the same SLO twice, and the fan-out over
that duplicated target issues two calls with identifiers 0 and 1 to the
same key. -/
theorem claim_C10_witness :
    find_component_slos
        [{ metadata := { name := some "a", displayName := none, project := some "p" },
           objectives := [] }]
        [{ project := some "p", slo := some "a", objective := some "o1" },
         { project := some "p", slo := some "a", objective := some "o2" }] =
      [{ metadata := { name := some "a", displayName := none, project := some "p" },
         objectives := [] },
       { metadata := { name := some "a", displayName := none, project := some "p" },
         objectives := [] }]
    ∧ (create_annotations_for_slos (fun _ => Outcome.Success)
        [{ metadata := { name := some "a", displayName := none, project := some "p" },
           objectives := [] },
         { metadata := { name := some "a", displayName := none, project := some "p" },
           objectives := [] }] "d" "s" "e" 0).calls.map (fun p => p.1.name) = [0, 1] := by
  have h := claim_C10
    [{ metadata := { name := some "a", displayName := none, project := some "p" },
       objectives := [] }]
    { project := some "p", slo := some "a", objective := none }
    (some "o1") (some "o2")
    { metadata := { name := some "a", displayName := none, project := some "p" },
      objectives := [] }
    (fun _ => Outcome.Success) "d" "s" "e" 0
  exact ⟨h.2.1 (by decide), (h.2.2 (by decide)).1⟩

/-- C5: every fan-out gives each submitted payload a fresh identifier,
pairwise distinct within the run — including across the composite and
component sub-batches of one composite fan-out — and applying to targets
that are all well-formed under an always-`Success` oracle yields the
tally `(N, N)`. -/
theorem claim_C5 (submit : AnnotationData → Outcome) (ts slos : List SLO) (c : SLO)
    (d st et : String) (ctr : Nat) :
    ((create_annotations_for_slos submit ts d st et ctr).calls.map
        (fun p => p.1.name)).Nodup
    ∧ ((list_composite_slos_core submit slos c d st et ctr).1.calls.map
        (fun p => p.1.name)).Nodup
    ∧ ((∀ t ∈ ts, wellFormed t = true) → (∀ a, submit a = Outcome.Success) →
        (create_annotations_for_slos submit ts d st et ctr).succeeded = ts.length
        ∧ (create_annotations_for_slos submit ts d st et ctr).total = ts.length) := by
  have hnames : ∀ (us : List SLO) (k : Nat),
      (apply_loop submit d st et us k).calls.map (fun p => p.1.name) =
        List.range' k (us.filter wellFormed).length :=
    fun us k => apply_loop_names submit d st et us k
  refine ⟨?_, ?_, ?_⟩
  · simpa [create_annotations_for_slos, hnames ts ctr] using
      List.nodup_range' ctr (ts.filter wellFormed).length
  · rw [list_composite_slos_core_calls]
    have hnext : (apply_loop submit d st et [c] ctr).nextId =
        ctr + ([c].filter wellFormed).length :=
      apply_loop_nextId submit d st et [c] ctr
    rw [List.map_append, hnames [c] ctr, hnext,
      hnames (find_component_slos slos (extract_composite_components c))
        (ctr + ([c].filter wellFormed).length),
      List.range'_append_1]
    exact List.nodup_range' ctr _
  · intro hwf hsucc
    refine ⟨?_, rfl⟩
    have hfil : ts.filter wellFormed = ts := List.filter_eq_self.mpr hwf
    have hall : (apply_loop submit d st et ts ctr).calls.filter
        (fun p => outcomeSucceeds p.2) = (apply_loop submit d st et ts ctr).calls := by
      rw [List.filter_eq_self]
      intro p hp
      rw [apply_loop_outcome submit d st et ts ctr p hp, hsucc p.1]
      rfl
    have := apply_loop_succeeded submit d st et ts ctr
    rw [hall] at this
    simpa [create_annotations_for_slos, this,
      apply_loop_calls_length submit d st et ts ctr, hfil]

/-- C5 witness: two well-formed targets under an always-`Success` oracle
give tally `(2, 2)`, and the identifiers of a concrete composite fan-out
are pairwise distinct. -/
theorem claim_C5_witness :
    ((create_annotations_for_slos (fun _ => Outcome.Success)
        [{ metadata := { name := some "a", displayName := none, project := some "p" },
           objectives := [] },
         { metadata := { name := some "b", displayName := none, project := some "p" },
           objectives := [] }] "d" "s" "e" 0).succeeded = 2
      ∧ (create_annotations_for_slos (fun _ => Outcome.Success)
        [{ metadata := { name := some "a", displayName := none, project := some "p" },
           objectives := [] },
         { metadata := { name := some "b", displayName := none, project := some "p" },
           objectives := [] }] "d" "s" "e" 0).total = 2)
    ∧ ((list_composite_slos_core (fun _ => Outcome.Success)
        [{ metadata := { name := some "a", displayName := none, project := some "p" },
           objectives := [] }]
        { metadata := { name := some "c", displayName := none, project := some "p" },
          objectives := [{ composite := some { componentObjectives :=
            [{ project := some "p", slo := some "a", objective := some "o" }] } }] }
        "d" "s" "e" 0).1.calls.map (fun p => p.1.name)).Nodup :=
  ⟨(claim_C5 (fun _ => Outcome.Success) _ []
      { metadata := { name := some "z", displayName := none, project := some "p" },
        objectives := [] } "d" "s" "e" 0).2.2
      (by intro t ht; fin_cases ht <;> rfl) (fun _ => rfl),
   (claim_C5 (fun _ => Outcome.Success) []
      [{ metadata := { name := some "a", displayName := none, project := some "p" },
         objectives := [] }]
      { metadata := { name := some "c", displayName := none, project := some "p" },
        objectives := [{ composite := some { componentObjectives :=
          [{ project := some "p", slo := some "a", objective := some "o" }] } }] }
      "d" "s" "e" 0).2.1⟩

/-- C6: no failure outcome aborts the batch — the tally's total and the
one-call-per-well-formed-target trace shape hold for every oracle,
including an always-raising one; `create_annotation` absorbs a raised
exception into `False`; and a `Conflict` outcome is distinguished from
the other failures in the diagnostics: both are not-succeeded, but
`Conflict` logs at WARNING while any other failure logs at ERROR. -/
theorem claim_C6 (submit : AnnotationData → Outcome) (ts : List SLO)
    (d st et : String) (ctr : Nat) (a : AnnotationData) :
    (create_annotations_for_slos submit ts d st et ctr).total = ts.length
    ∧ (create_annotations_for_slos submit ts d st et ctr).calls.length
        = (ts.filter wellFormed).length
    ∧ create_annotation_result submit a = outcomeSucceeds (submit a)
    ∧ create_annotation_result (fun _ => Outcome.Raised) a = false
    ∧ outcomeSucceeds Outcome.Conflict = false
    ∧ create_annotation_level Outcome.Conflict = LogLevel.WARNING
    ∧ outcomeSucceeds Outcome.HttpError = false
    ∧ create_annotation_level Outcome.HttpError = LogLevel.ERROR
    ∧ outcomeSucceeds Outcome.Raised = false
    ∧ create_annotation_level Outcome.Raised = LogLevel.ERROR
    ∧ (LogLevel.WARNING == LogLevel.ERROR) = false :=
  ⟨rfl, apply_loop_calls_length submit d st et ts ctr,
   create_annotation_result_eq submit a, rfl, rfl, rfl, rfl, rfl, rfl, rfl, rfl⟩

/-- C8: `extract_composite_components` yields, objective by objective in
order, the concatenation of the per-objective reference lists, and
splitting the objectives list splits the extracted references
accordingly. -/
theorem claim_C8 (c : SLO) (m : Metadata) (os1 os2 : List Objective) :
    extract_composite_components c = (c.objectives.map objective_component_refs).flatten
    ∧ extract_composite_components { metadata := m, objectives := os1 ++ os2 } =
        extract_composite_components { metadata := m, objectives := os1 } ++
          extract_composite_components { metadata := m, objectives := os2 } := by
  constructor
  · exact extract_components_loop_eq_join c.objectives
  · simp [extract_composite_components, extract_components_loop_eq_join]

/-- C9: an SLO with an empty (or absent) objectives list is never
composite: the classifier puts it in the component group and never in
the composite group. -/
theorem claim_C9 (s : SLO) (slos : List SLO) (h : s.objectives = []) :
    slo_is_composite s = false
    ∧ (s ∈ slos → s ∈ (identify_composite_slos slos).2)
    ∧ s ∉ (identify_composite_slos slos).1 := by
  have hc : slo_is_composite s = false := by simp [slo_is_composite, h]
  refine ⟨hc, ?_, ?_⟩
  · intro hs
    rw [identify_eq_filter]
    simp [List.mem_filter, hs, hc]
  · rw [identify_eq_filter]
    simp [List.mem_filter, hc]

/-- C9 witness: a concrete SLO with no objectives lands in the component
group of a one-element inventory and not in the composite group. -/
theorem claim_C9_witness :
    ({ metadata := { name := some "a", displayName := none, project := some "p" },
       objectives := [] } : SLO) ∈
      (identify_composite_slos
        [{ metadata := { name := some "a", displayName := none, project := some "p" },
           objectives := [] }]).2 :=
  (claim_C9 _ _ rfl).2.1 (List.mem_singleton.mpr rfl)

end AnnotationCreator
